import Mathlib

/-!
Verification of the buildOS CO2 calculation engine.

Shallow embedding of the engine found in `src/workspace/calculate_co2_report.py`
(the main implementation), with the sibling copies
`src/workspace/final_co2_calculation.py` (its `find_co2_factor`) and
`src/workspace/build_co2_report.py` (its `get_rebar_ratio` and per-element
result construction) embedded where the claims cite them.

Modelling conventions:
  * Python floats are modelled as `ℚ`; `round(x, n)` is modelled with
    Mathlib's `round` (Python rounds half to even on binary floats; no
    theorem below depends on the direction of a tie, and every concrete
    input used avoids ties).
  * Python dicts are insertion-ordered association lists
    `List (String × _)`; `k in d` / `d[k]` / `d.get(k)` are `dictGet`,
    and `list(d.keys())[0]` is `List.head?` (raising `IndexError` on an
    empty dict, modelled by `Except.error`).
  * A value that may be Python `None` is an `Option`; `str(None)` renders
    as "None" (`pyStr`).
  * Fallible code returns `Except String _`; `Except.error` marks an
    uncaught Python exception aborting the run.
-/

namespace BuildOS

/-- One material entry of the database:
`{density_kg_m3, embodied_co2_per_kg, source}`; each field is read with
`.get(...)` in the source, so each may be absent. -/
structure MatEntry where
  embodied_co2_per_kg : Option ℚ
  density_kg_m3 : Option ℚ
  source : Option String
deriving DecidableEq

/-- The material reference database: `materials` maps category → (subcategory
→ entry), both insertion-ordered; `reinforcement_ratios` maps element-type or
bucket name → percentage. -/
structure Database where
  materials : List (String × List (String × MatEntry))
  reinforcement_ratios : List (String × ℚ)
  version : Option String
deriving DecidableEq

/-- `material_primary` of an element: `{category, subcategory}`, each possibly
null. -/
structure MaterialPrimary where
  category : Option String
  subcategory : Option String
deriving DecidableEq

/-- An input element, as read by `element.get(...)` in the source: every field
may be absent. -/
structure Element where
  global_id : Option String
  name : Option String
  element_type : Option String
  material_primary : Option MaterialPrimary
  volume_m3 : Option ℚ
  confidence : Option ℚ
deriving DecidableEq

/-- The per-element `metadata` dict built by
`calculate_co2_report.calculate_element_co2` (lines 121-135). -/
structure ElementResult where
  global_id : Option String
  element_name : Option String
  element_type : Option String
  material_category : Option String
  volume_m3 : Option ℚ
  mass_kg : Option ℚ
  co2_kg : Option ℚ
  co2_factor_used : Option ℚ
  data_source : Option String
  calculation_method : Option String
  confidence : ℚ
  warnings : List String
  reinforcement_added : Bool
deriving DecidableEq

/-- Python dict lookup `d.get(k)` / `d[k]` over an insertion-ordered mapping. -/
def dictGet {α : Type} (k : String) : List (String × α) → Option α
  | [] => none
  | (k', v) :: rest => if k = k' then some v else dictGet k rest

/-- Lookup with a possibly-`None` key: `None in d` is `False` in Python. -/
def optGet {α : Type} (k : Option String) (d : List (String × α)) : Option α :=
  match k with
  | none => none
  | some s => dictGet s d

/-- `str(v)` for a string-or-None value, as a Python f-string renders it. -/
def pyStr : Option String → String
  | some s => s
  | none => "None"

/-- Python `round(x, 2)` (see the tie-breaking note in the header). -/
def round2 (q : ℚ) : ℚ := (round (q * 100) : ℤ) / 100

/-- Python `round(x, 1)` (see the tie-breaking note in the header). -/
def round1 (q : ℚ) : ℚ := (round (q * 10) : ℤ) / 10

/-- Python `f"{q:.Nf}"` fixed-decimal formatting (tie-breaking as above). -/
def fixedDecimal (q : ℚ) (digits : Nat) : String :=
  let m : ℤ := round (q * (10 : ℚ) ^ digits)
  let sign := if m < 0 then "-" else ""
  let a := m.natAbs
  let ip := a / 10 ^ digits
  let fp := a % 10 ^ digits
  let fs := toString fp
  let pad := String.mk (List.replicate (digits - fs.length) '0')
  if digits = 0 then sign ++ toString ip
  else sign ++ toString ip ++ "." ++ pad ++ fs

/-- Whether the first list of characters starts the second. -/
def charsMatchAt : List Char → List Char → Bool
  | [], _ => true
  | _ :: _, [] => false
  | c :: cs, d :: ds => c = d && charsMatchAt cs ds

/-- Whether the first list of characters occurs inside the second. -/
def charsHasSub (needle : List Char) : List Char → Bool
  | [] => charsMatchAt needle []
  | d :: ds => charsMatchAt needle (d :: ds) || charsHasSub needle ds

/-- Python `needle in haystack` on strings (substring test). -/
def strIn (needle haystack : String) : Bool :=
  charsHasSub needle.toList haystack.toList

/-- Python `s.lower()` (as `String.toLower`, written over the character list
so that it evaluates by reduction). -/
def pyLower (s : String) : String := String.mk (s.data.map Char.toLower)

/-- `calculate_co2_report.find_co2_factor` (lines 23-61): the tiered factor
lookup. Tier 3 evaluates `list(category_data.keys())[0]` before any guard, so
an empty category raises `IndexError` (modelled as `Except.error`); a falsy
(empty-string) first key fails the `if first_key` check and falls through to
the not-found return. -/
def find_co2_factor (database : Database) (material_category : String)
    (material_subcategory : Option String) :
    Except String (Option ℚ × String × List String) :=
  match dictGet material_category database.materials with
  | none => Except.ok (none, "not_found",
      ["Material category '" ++ material_category ++ "' not found in database"])
  | some category_data =>
    match optGet material_subcategory category_data with
    | some entry =>
        Except.ok (entry.embodied_co2_per_kg, entry.source.getD "unknown", [])
    | none =>
      let generic_key := material_category ++ "_generic"
      match dictGet generic_key category_data with
      | some entry =>
          Except.ok (entry.embodied_co2_per_kg, entry.source.getD "unknown",
            ["Used " ++ generic_key ++ " as fallback for " ++
              pyStr material_subcategory])
      | none =>
        match category_data.head? with
        | none => Except.error "IndexError: list index out of range"
        | some (first_key, entry) =>
          if first_key ≠ "" ∧ some first_key ≠ material_subcategory then
            Except.ok (entry.embodied_co2_per_kg, entry.source.getD "unknown",
              ["Used " ++ first_key ++ " as fallback for " ++
                pyStr material_subcategory])
          else
            Except.ok (none, "not_found",
              ["Material '" ++ pyStr material_subcategory ++
                "' not found in database category '" ++ material_category ++ "'"])

/-- `calculate_co2_report.get_material_density` (lines 63-84): same chain; the
first-key tier again indexes `[0]` unguarded, and returns `None` (not the
entry) when the first key is falsy. -/
def get_material_density (database : Database) (material_category : String)
    (material_subcategory : Option String) : Except String (Option ℚ) :=
  match dictGet material_category database.materials with
  | none => Except.ok none
  | some category_data =>
    match optGet material_subcategory category_data with
    | some entry => Except.ok entry.density_kg_m3
    | none =>
      match dictGet (material_category ++ "_generic") category_data with
      | some entry => Except.ok entry.density_kg_m3
      | none =>
        match category_data.head? with
        | none => Except.error "IndexError: list index out of range"
        | some (first_key, entry) =>
          if first_key ≠ "" then Except.ok entry.density_kg_m3
          else Except.ok none

/-- `final_co2_calculation.find_co2_factor` (lines 25-65): the sibling copy,
total by construction (`list(category_data.keys())[0] if category_data else
None`), with its own generic-fallback warning text. -/
def find_co2_factor_final (database : Database) (material_category : String)
    (material_subcategory : Option String) : Option ℚ × String × List String :=
  match dictGet material_category database.materials with
  | none => (none, "not_found",
      ["Material category '" ++ material_category ++ "' not found in database"])
  | some category_data =>
    match optGet material_subcategory category_data with
    | some entry => (entry.embodied_co2_per_kg, entry.source.getD "unknown", [])
    | none =>
      let generic_key := material_category ++ "_generic"
      match dictGet generic_key category_data with
      | some entry =>
          (entry.embodied_co2_per_kg, entry.source.getD "unknown",
            ["Used " ++ generic_key ++ " (0.115) for unspecified " ++
              material_category ++ " grade"])
      | none =>
        match category_data.head? with
        | some (first_key, entry) =>
          if first_key ≠ "" then
            (entry.embodied_co2_per_kg, entry.source.getD "unknown",
              ["Used " ++ first_key ++ " as fallback for " ++
                pyStr material_subcategory])
          else
            (none, "not_found",
              ["Material '" ++ pyStr material_subcategory ++
                "' not found in database category '" ++ material_category ++ "'"])
        | none =>
          (none, "not_found",
            ["Material '" ++ pyStr material_subcategory ++
              "' not found in database category '" ++ material_category ++ "'"])

/-- `ratios.get(key, default)` scaled by 1/100, the pattern used throughout
the reinforcement lookups. -/
def ratioGetD (ratios : List (String × ℚ)) (k : String) (d : ℚ) : ℚ :=
  (dictGet k ratios).getD d

/-- `calculate_co2_report.get_reinforcement_ratio` (lines 86-114): exact key
match first; then a fuzzy block whose column/beam/slab/wall checks are nested
inside an `if "structural" in t or "slab" in t` guard (falling through to the
footing/foundation checks when no inner branch fires); then 0. -/
def get_reinforcement_ratio (database : Database) (element_type : String) : ℚ :=
  let ratios := database.reinforcement_ratios
  match dictGet element_type ratios with
  | some r => r / 100
  | none =>
    let t := pyLower element_type
    let structuralBlock : Option ℚ :=
      if strIn "structural" t || strIn "slab" t then
        if strIn "column" t then some (ratioGetD ratios "column" (5/2) / 100)
        else if strIn "beam" t then some (ratioGetD ratios "beam" (14/5) / 100)
        else if strIn "slab" t then some (ratioGetD ratios "structural_slab" 2 / 100)
        else if strIn "wall" t then some (ratioGetD ratios "structural_wall" (11/5) / 100)
        else none
      else none
    match structuralBlock with
    | some r => r
    | none =>
      if strIn "footing" t then ratioGetD ratios "footing" (3/2) / 100
      else if strIn "foundation" t then
        if strIn "wall" t then ratioGetD ratios "foundation_wall" (9/5) / 100
        else ratioGetD ratios "foundation_slab" (9/5) / 100
      else 0

/-- `build_co2_report.get_rebar_ratio` (lines 68-91): the sibling copy; exact
key match, then the first of column/beam/slab/footing/wall contained in the
lowered type name decides (wall splitting on foundation), else 0. -/
def get_rebar_ratio (database : Database) (element_type : String) : ℚ :=
  let ratios := database.reinforcement_ratios
  let et_lower := pyLower element_type
  match dictGet element_type ratios with
  | some r => r / 100
  | none =>
    if strIn "column" et_lower then ratioGetD ratios "column" (5/2) / 100
    else if strIn "beam" et_lower then ratioGetD ratios "beam" (14/5) / 100
    else if strIn "slab" et_lower then ratioGetD ratios "structural_slab" 2 / 100
    else if strIn "footing" et_lower then ratioGetD ratios "footing" (3/2) / 100
    else if strIn "wall" et_lower then
      if strIn "foundation" et_lower then ratioGetD ratios "foundation_wall" (9/5) / 100
      else ratioGetD ratios "structural_wall" (11/5) / 100
    else 0

/-- The `metadata` dict as initialized at `calculate_element_co2` lines
121-135. -/
def initial_metadata (element : Element) : ElementResult :=
  { global_id := element.global_id
    element_name := element.name
    element_type := element.element_type
    material_category := none
    volume_m3 := element.volume_m3
    mass_kg := none
    co2_kg := none
    co2_factor_used := none
    data_source := none
    calculation_method := none
    confidence := element.confidence.getD (1/2)
    warnings := []
    reinforcement_added := false }

/-- The skip pattern repeated in `calculate_element_co2`:
`metadata["calculation_method"] = "skipped"` followed by appending the given
warnings, returning `(None, metadata)`. -/
def markSkipped (metadata : ElementResult) (ws : List String) :
    Option ℚ × ElementResult :=
  (none, { metadata with
           calculation_method := some "skipped"
           warnings := metadata.warnings ++ ws })

/-- The element types eligible for reinforcement
(`calculate_element_co2` lines 183-186). -/
def reinforceable_types : List String :=
  ["column", "beam", "slab", "slab_structural", "structural_wall",
   "load_bearing_wall", "footing", "foundation_wall", "foundation_slab"]

/-- The warning appended when rebar is added (`calculate_element_co2` line
194): `f"Added {rebar_ratio*100:.1f}% reinforcement ({rebar_mass:.2f} kg steel)"`. -/
def rebarWarning (rebar_ratio rebar_mass : ℚ) : String :=
  "Added " ++ fixedDecimal (rebar_ratio * 100) 1 ++ "% reinforcement (" ++
    fixedDecimal rebar_mass 2 ++ " kg steel)"

/-- `calculate_co2_report.calculate_element_co2` (lines 116-199): the linear
per-element state machine. Returns `(co2_kg, metadata)`; the raw (unrounded)
CO2 is returned, the rounded one stored on the metadata. -/
def calculate_element_co2 (element : Element) (database : Database) :
    Except String (Option ℚ × ElementResult) :=
  let metadata := initial_metadata element
  match element.volume_m3 with
  | none => Except.ok (markSkipped metadata ["No volume data - cannot calculate CO2"])
  | some volume =>
    if volume = 0 then
      Except.ok (markSkipped metadata ["No volume data - cannot calculate CO2"])
    else
      let material_primary := element.material_primary.getD ⟨none, none⟩
      match material_primary.category with
      | none => Except.ok (markSkipped metadata ["No material category - cannot calculate CO2"])
      | some material_category =>
        if material_category = "" then
          Except.ok (markSkipped metadata ["No material category - cannot calculate CO2"])
        else
          let metadata := { metadata with material_category := some material_category }
          match find_co2_factor database material_category material_primary.subcategory with
          | Except.error e => Except.error e
          | Except.ok (co2_factor?, source, factor_warnings) =>
            match co2_factor? with
            | none => Except.ok (markSkipped metadata factor_warnings)
            | some co2_factor =>
              let metadata := { metadata with
                                co2_factor_used := some co2_factor
                                data_source := some source
                                warnings := metadata.warnings ++ factor_warnings }
              match get_material_density database material_category material_primary.subcategory with
              | Except.error e => Except.error e
              | Except.ok none =>
                  Except.ok (markSkipped metadata
                    ["Cannot determine density for " ++ material_category])
              | Except.ok (some density) =>
                let mass_kg := volume * density
                let metadata := { metadata with mass_kg := some (round2 mass_kg) }
                let co2_base := mass_kg * co2_factor
                let step : ℚ × ElementResult :=
                  match element.element_type with
                  | some t =>
                    if material_category = "concrete" ∧ t ∈ reinforceable_types then
                      let rebar_ratio := get_reinforcement_ratio database t
                      if 0 < rebar_ratio then
                        let rebar_mass := mass_kg * rebar_ratio
                        let rebar_co2 := rebar_mass * (165/100)
                        (co2_base + rebar_co2,
                         { metadata with
                           reinforcement_added := true
                           warnings := metadata.warnings ++
                             [rebarWarning rebar_ratio rebar_mass] })
                      else (co2_base, metadata)
                    else (co2_base, metadata)
                  | none => (co2_base, metadata)
                Except.ok (some step.1,
                  { step.2 with
                    co2_kg := some (round2 step.1)
                    calculation_method := some "volume_based" })

/-- Per-category running totals (`aggregate_by_category` lines 201-223); the
`percentage` key is added by the later pass in `generate_report` and starts
at 0 here. -/
structure CategoryAgg where
  count : Nat
  co2_kg : ℚ
  mass_kg : ℚ
  elements : List (Option String)
  percentage : ℚ
deriving DecidableEq

/-- The in-place accumulation of one result into its category bucket
(`aggregate_by_category` lines 218-221); the summed `co2_kg`/`mass_kg` are
the rounded per-element values stored on the result. -/
def addToCategory (agg : CategoryAgg) (r : ElementResult) : CategoryAgg :=
  { agg with
    count := agg.count + 1
    co2_kg := agg.co2_kg + r.co2_kg.getD 0
    mass_kg := agg.mass_kg + r.mass_kg.getD 0
    elements := agg.elements ++ [r.global_id] }

/-- Insertion-ordered dict update: existing bucket updated in place, new
bucket appended (Python dict semantics of lines 210-221). -/
def updateCategory : List (Option String × CategoryAgg) → Option String →
    ElementResult → List (Option String × CategoryAgg)
  | [], cat, r => [(cat, addToCategory ⟨0, 0, 0, [], 0⟩ r)]
  | (k, agg) :: rest, cat, r =>
    if k = cat then (k, addToCategory agg r) :: rest
    else (k, agg) :: updateCategory rest cat r

/-- The loop body of `aggregate_by_category` (lines 205-221). -/
def aggStep (acc : List (Option String × CategoryAgg)) (r : ElementResult) :
    List (Option String × CategoryAgg) :=
  if r.calculation_method = some "skipped" then acc
  else updateCategory acc r.material_category r

/-- `calculate_co2_report.aggregate_by_category` (lines 201-223); results
whose `calculation_method` is "skipped" are passed over. The key is the
result's `material_category` (possibly null). -/
def aggregate_by_category (results : List ElementResult) :
    List (Option String × CategoryAgg) :=
  results.foldl aggStep []

/-- Insertion into a descending-sorted list: the new element goes after
every element with a strictly larger key. Elements with equal keys end up
in the opposite order to Python's stable `list.sort(reverse=True)`; no
theorem below depends on tie order (sortedness and permutation conclusions
are tie-agnostic, and the concrete runs use distinct keys). -/
def insertDescBy {α : Type} (key : α → ℚ) (x : α) : List α → List α
  | [] => [x]
  | y :: ys => if key y < key x then x :: y :: ys else y :: insertDescBy key x ys

/-- Descending sort by a rational key, modelling `sort(..., reverse=True)`
up to the order of equal keys (see `insertDescBy`). -/
def sortDescBy {α : Type} (key : α → ℚ) : List α → List α
  | [] => []
  | x :: xs => insertDescBy key x (sortDescBy key xs)

/-- The sort key of `detailed_results.sort(key=lambda x: x["co2_kg"], ...)`:
every detailed result carries `some` value (Python would fail on `None`). -/
def resultCo2 (r : ElementResult) : ℚ := r.co2_kg.getD 0

/-- The running state of `generate_report`'s element loop (lines 232-248). -/
structure RunAcc where
  detailed : List ElementResult
  skipped : List ElementResult
  total_co2 : ℚ
  total_mass : ℚ
  calculated : Nat
deriving DecidableEq

/-- The element loop of `generate_report` (lines 239-248): `total_co2` sums
the raw returned CO2, `total_mass` the rounded stored mass. An exception from
`calculate_element_co2` aborts the whole run. -/
def processElements (database : Database) (acc : RunAcc) :
    List Element → Except String RunAcc
  | [] => Except.ok acc
  | element :: rest =>
    match calculate_element_co2 element database with
    | Except.error e => Except.error e
    | Except.ok (co2_kg?, metadata) =>
      if metadata.calculation_method = some "skipped" then
        processElements database { acc with skipped := acc.skipped ++ [metadata] } rest
      else
        processElements database
          { acc with
            detailed := acc.detailed ++ [metadata]
            total_co2 := acc.total_co2 + co2_kg?.getD 0
            total_mass := acc.total_mass + metadata.mass_kg.getD 0
            calculated := acc.calculated + 1 } rest

/-- The percentage pass of `generate_report` (lines 256-263): the divisor is
the sum of the category buckets' `co2_kg`; on a zero total every percentage
is set to 0 (no division happens). -/
def setPercentages (by_category : List (Option String × CategoryAgg)) :
    List (Option String × CategoryAgg) :=
  let total_co2_for_pct := (by_category.map (fun p => p.2.co2_kg)).sum
  if total_co2_for_pct ≠ 0 then
    by_category.map (fun p =>
      (p.1, { p.2 with percentage := round1 (p.2.co2_kg / total_co2_for_pct * 100) }))
  else
    by_category.map (fun p => (p.1, { p.2 with percentage := 0 }))

/-- The report `summary` (lines 276-286). The wall-clock `timestamp` field is
not modelled (it is the one field outside every claim). -/
structure Summary where
  input_file : String
  database_version : String
  total_elements : Nat
  calculated : Nat
  skipped : Nat
  total_co2_kg : ℚ
  total_mass_kg : ℚ
  completeness_pct : ℚ
deriving DecidableEq

/-- The full report value (lines 289-294). -/
structure Report where
  summary : Summary
  by_category : List (Option String × CategoryAgg)
  detailed_results : List ElementResult
  skipped_elements : List ElementResult
deriving DecidableEq

/-- The post-loop assembly of `generate_report` (lines 250-296): sort,
aggregate, percentages, category sort, summary. -/
def assembleReport (elements : List Element) (database : Database)
    (input_file : String) (acc : RunAcc) : Report :=
  let detailed_results := sortDescBy resultCo2 acc.detailed
    let by_category := setPercentages (aggregate_by_category detailed_results)
    let by_category_sorted := sortDescBy (fun p => p.2.co2_kg) by_category
    let total_elements := elements.length
    let completeness_pct : ℚ :=
      if 0 < total_elements then ((acc.calculated : ℚ) / (total_elements : ℚ)) * 100
      else 0
    { summary :=
        { input_file := input_file
          database_version := database.version.getD "unknown"
          total_elements := total_elements
          calculated := acc.calculated
          skipped := acc.skipped.length
          total_co2_kg := round2 acc.total_co2
          total_mass_kg := round2 acc.total_mass
          completeness_pct := round1 completeness_pct }
      by_category := by_category_sorted
      detailed_results := detailed_results
      skipped_elements := acc.skipped }

/-- `calculate_co2_report.generate_report` (lines 225-296): run the element
loop, then assemble the report; an exception aborts the run. -/
def generate_report (elements : List Element) (database : Database)
    (input_file : String) : Except String Report :=
  match processElements database ⟨[], [], 0, 0, 0⟩ elements with
  | Except.error e => Except.error e
  | Except.ok acc => Except.ok (assembleReport elements database input_file acc)

/-- The per-element result dict as initialized by `build_co2_report.py`
lines 109-122 (that copy's dict has no `reinforcement_added` key; its
`confidence` is rounded to 2 decimals at construction). -/
structure BuildResult where
  global_id : Option String
  element_name : Option String
  element_type : String
  material_category : Option String
  volume_m3 : Option ℚ
  mass_kg : Option ℚ
  co2_kg : Option ℚ
  co2_factor_used : Option ℚ
  data_source : Option String
  calculation_method : Option String
  confidence : ℚ
  warnings : List String
deriving DecidableEq

/-- The construction at `build_co2_report.py` lines 109-122 (Python indexes
`elem['global_id']` and `elem['name']` directly; the carried values are the
same when present, which is all the claims use). -/
def build_initial_result (elem : Element) : BuildResult :=
  { global_id := elem.global_id
    element_name := elem.name
    element_type := elem.element_type.getD ""
    material_category := (elem.material_primary.getD ⟨none, none⟩).category
    volume_m3 := elem.volume_m3
    mass_kg := none
    co2_kg := none
    co2_factor_used := none
    data_source := none
    calculation_method := none
    confidence := round2 (elem.confidence.getD (1/2))
    warnings := [] }

/-- The metadata record produced for an element skipped for missing volume:
`initial_metadata` marked "skipped" with the no-volume warning. -/
def C6skip (element : Element) : ElementResult :=
  (markSkipped (initial_metadata element) ["No volume data - cannot calculate CO2"]).2

/-! Concrete test inputs used by the closed theorems below. -/

/-- A category whose first (and only) subcategory key is the empty string. -/
def dbC1 : Database :=
  ⟨[("cat", [("", ⟨some 7, some 1, some "src"⟩)])], [], none⟩

/-- A category with a single ordinary subcategory, no generic key. -/
def dbC1w : Database :=
  ⟨[("brick", [("brick_standard", ⟨some 1, some 1800, none⟩)])], [], none⟩

/-- A database whose "brick" category is present but empty. -/
def dbC5 : Database := ⟨[("brick", [])], [], none⟩

/-- Concrete with only a generic entry; `reinforcement_ratios` has no
"column" key, forcing the keyword-match path. -/
def dbC3 : Database :=
  ⟨[("concrete", [("concrete_generic", ⟨some (1/10), some 1000, some "db"⟩)])], [], none⟩

/-- A plain concrete column, volume 1 m3, so its concrete mass is 1000 kg. -/
def elemC3 : Element :=
  ⟨some "g1", some "Column1", some "column", some ⟨some "concrete", some "concrete_generic"⟩,
    some 1, some 1⟩

/-- Database parameterized by the `steel.steel_reinforcement` entry; the
"beam" ratio is keyed exactly (2.8). -/
def dbC4 (se : MatEntry) : Database :=
  ⟨[("concrete", [("concrete_generic", ⟨some (1/10), some 2000, some "db"⟩)]),
    ("steel", [("steel_reinforcement", se)])], [("beam", 14/5)], none⟩

/-- A steel entry whose embodied factor (2.0) differs from the literal 1.65. -/
def steelEntryC4 : MatEntry := ⟨some 2, some 7850, some "db"⟩

/-- `mats` with the value under every "steel" key replaced by `steel_data`
(order and all other keys untouched). -/
def setSteelMats (steel_data : List (String × MatEntry)) :
    List (String × List (String × MatEntry)) →
      List (String × List (String × MatEntry))
  | [] => []
  | (k, v) :: rest =>
    (if k = "steel" then ("steel", steel_data) else (k, v)) ::
      setSteelMats steel_data rest

/-- The database with its "steel" material category replaced by
`steel_data`; used to state that the engine never consults the steel
category (in particular its `steel_reinforcement` entry). -/
def setSteel (database : Database) (steel_data : List (String × MatEntry)) :
    Database :=
  { database with materials := setSteelMats steel_data database.materials }

/-- A concrete beam, volume 1 m3, mass 2000 kg, rebar mass 56 kg. -/
def elemC4 : Element :=
  ⟨some "g4", some "Beam1", some "beam", some ⟨some "concrete", some "concrete_generic"⟩,
    some 1, some 1⟩

/-- The result record `calculate_element_co2` produces for `elemC4`:
CO2 is 200 + 56 x 1.65 = 292.4 whatever the steel entry holds. -/
def resC4 : ElementResult :=
  { global_id := some "g4"
    element_name := some "Beam1"
    element_type := some "beam"
    material_category := some "concrete"
    volume_m3 := some 1
    mass_kg := some 2000
    co2_kg := some (1462/5)
    co2_factor_used := some (1/10)
    data_source := some "db"
    calculation_method := some "volume_based"
    confidence := 1
    warnings := ["Added 2.8% reinforcement (56.00 kg steel)"]
    reinforcement_added := true }

/-- An element with no volume and a non-2-decimal confidence 0.123. -/
def elemC10 : Element :=
  ⟨some "g", some "W", some "wall", none, none, some (123/1000)⟩

/-- An empty database. -/
def dbC10 : Database := ⟨[], [], none⟩

/-- The result record `calculate_element_co2` produces for `elemC10`. -/
def resC10 : ElementResult :=
  match calculate_element_co2 elemC10 dbC10 with
  | Except.ok (_, r) => r
  | Except.error _ => initial_metadata elemC10

/-- An element with null volume used to witness the skip path. -/
def elemC6 : Element :=
  ⟨some "g6", some "Beam", some "beam", some ⟨some "concrete", some "C30"⟩, none, some (9/10)⟩

/-- A two-category database for the full-report runs. -/
def dbW : Database :=
  ⟨[("concrete", [("C30_40", ⟨some (1/10), some 2400, some "NIBE"⟩)]),
    ("steel", [("steel_generic", ⟨some 2, some 7850, some "NIBE"⟩)])], [], some "v1"⟩

/-- Calculated concrete element: mass 24000 kg, CO2 2400 kg. -/
def elemW1 : Element :=
  ⟨some "g1", some "Window frame", some "window", some ⟨some "concrete", some "C30_40"⟩,
    some 10, some (3/4)⟩

/-- Calculated steel element: mass 7850 kg, CO2 15700 kg. -/
def elemW2 : Element :=
  ⟨some "g2", some "Door", some "door", some ⟨some "steel", some "steel_generic"⟩,
    some 1, none⟩

/-- Skipped element (no volume, no material). -/
def elemW3 : Element := ⟨some "g3", some "Wall", some "wall", none, none, none⟩

/-- The detailed result for `elemW1`. -/
def resW1 : ElementResult :=
  { global_id := some "g1"
    element_name := some "Window frame"
    element_type := some "window"
    material_category := some "concrete"
    volume_m3 := some 10
    mass_kg := some 24000
    co2_kg := some 2400
    co2_factor_used := some (1/10)
    data_source := some "NIBE"
    calculation_method := some "volume_based"
    confidence := 3/4
    warnings := []
    reinforcement_added := false }

/-- The detailed result for `elemW2`. -/
def resW2 : ElementResult :=
  { global_id := some "g2"
    element_name := some "Door"
    element_type := some "door"
    material_category := some "steel"
    volume_m3 := some 1
    mass_kg := some 7850
    co2_kg := some 15700
    co2_factor_used := some 2
    data_source := some "NIBE"
    calculation_method := some "volume_based"
    confidence := 1/2
    warnings := []
    reinforcement_added := false }

/-- The report produced by `generate_report [elemW1, elemW2, elemW3] dbW`. -/
def repW : Report :=
  { summary :=
      { input_file := "input.json"
        database_version := "v1"
        total_elements := 3
        calculated := 2
        skipped := 1
        total_co2_kg := 18100
        total_mass_kg := 31850
        completeness_pct := 667/10 }
    by_category :=
      [(some "steel", ⟨1, 15700, 7850, [some "g2"], 867/10⟩),
       (some "concrete", ⟨1, 2400, 24000, [some "g1"], 133/10⟩)]
    detailed_results := [resW2, resW1]
    skipped_elements := [C6skip elemW3] }

/-! Helper lemmas: the sorting used by the report assembler. -/

theorem insertDescBy_perm {α : Type} (key : α → ℚ) (x : α) (l : List α) :
    List.Perm (insertDescBy key x l) (x :: l) := by
  induction l with
  | nil => simp [insertDescBy]
  | cons y ys ih =>
    by_cases h : key y < key x
    · simp [insertDescBy, h]
    · simp only [insertDescBy, if_neg h]
      exact (ih.cons y).trans (List.Perm.swap x y ys)

theorem sortDescBy_perm {α : Type} (key : α → ℚ) (l : List α) :
    List.Perm (sortDescBy key l) l := by
  induction l with
  | nil => simp [sortDescBy]
  | cons x xs ih =>
    exact (insertDescBy_perm key x (sortDescBy key xs)).trans (ih.cons x)

theorem insertDescBy_sorted {α : Type} (key : α → ℚ) (x : α) (l : List α)
    (h : l.Pairwise (fun a b => key b ≤ key a)) :
    (insertDescBy key x l).Pairwise (fun a b => key b ≤ key a) := by
  induction l with
  | nil => simp [insertDescBy]
  | cons y ys ih =>
    rcases List.pairwise_cons.mp h with ⟨hy, hys⟩
    by_cases hxy : key y < key x
    · simp only [insertDescBy, if_pos hxy]
      refine List.pairwise_cons.mpr ⟨?_, h⟩
      intro z hz
      rcases List.mem_cons.mp hz with hz | hz
      · exact hz ▸ le_of_lt hxy
      · exact le_trans (hy z hz) (le_of_lt hxy)
    · simp only [insertDescBy, if_neg hxy]
      refine List.pairwise_cons.mpr ⟨?_, ih hys⟩
      intro z hz
      rcases List.mem_cons.mp ((insertDescBy_perm key x ys).mem_iff.mp hz) with hz | hz
      · exact hz ▸ le_of_not_lt hxy
      · exact hy z hz

theorem sortDescBy_sorted {α : Type} (key : α → ℚ) (l : List α) :
    (sortDescBy key l).Pairwise (fun a b => key b ≤ key a) := by
  induction l with
  | nil => simp [sortDescBy]
  | cons x xs ih => exact insertDescBy_sorted key x _ ih

theorem sortDescBy_length {α : Type} (key : α → ℚ) (l : List α) :
    (sortDescBy key l).length = l.length :=
  (sortDescBy_perm key l).length_eq

theorem sortDescBy_sum_map {α M : Type} [AddCommMonoid M] (key : α → ℚ)
    (f : α → M) (l : List α) :
    ((sortDescBy key l).map f).sum = (l.map f).sum :=
  ((sortDescBy_perm key l).map f).sum_eq

/-! Helper lemmas: rounding bounds. -/

theorem abs_round2_sub (q : ℚ) : |round2 q - q| ≤ 1 / 200 := by
  have key : round2 q - q = ((round (q * 100) : ℚ) - q * 100) / 100 := by
    rw [round2]; ring
  have h := abs_sub_round (q * 100)
  rw [abs_sub_comm] at h
  rw [key, abs_div, abs_of_pos (show (0:ℚ) < 100 by norm_num)]
  calc |(round (q * 100) : ℚ) - q * 100| / 100 ≤ (1/2) / 100 :=
        (div_le_div_iff_of_pos_right (by norm_num)).mpr h
    _ = 1 / 200 := by norm_num

theorem abs_round1_sub (q : ℚ) : |round1 q - q| ≤ 1 / 20 := by
  have key : round1 q - q = ((round (q * 10) : ℚ) - q * 10) / 10 := by
    rw [round1]; ring
  have h := abs_sub_round (q * 10)
  rw [abs_sub_comm] at h
  rw [key, abs_div, abs_of_pos (show (0:ℚ) < 10 by norm_num)]
  calc |(round (q * 10) : ℚ) - q * 10| / 10 ≤ (1/2) / 10 :=
        (div_le_div_iff_of_pos_right (by norm_num)).mpr h
    _ = 1 / 20 := by norm_num

theorem sum_map_abs_bound (f : ℚ → ℚ) (eps : ℚ)
    (hf : ∀ q : ℚ, |f q - q| ≤ eps) (l : List ℚ) :
    |(l.map f).sum - l.sum| ≤ l.length * eps := by
  induction l with
  | nil => simp
  | cons a as ih =>
    have key : (f a + (as.map f).sum) - (a + as.sum) =
        (f a - a) + ((as.map f).sum - as.sum) := by ring
    simp only [List.map_cons, List.sum_cons, List.length_cons, key]
    calc |(f a - a) + ((as.map f).sum - as.sum)|
        ≤ |f a - a| + |(as.map f).sum - as.sum| := abs_add _ _
      _ ≤ eps + as.length * eps := add_le_add (hf a) ih
      _ = ((as.length + 1 : ℕ) : ℚ) * eps := by push_cast; ring

theorem round2_sum_bound (l : List ℚ) :
    |round2 l.sum - (l.map round2).sum| ≤ (l.length + 1) * (1 / 200) := by
  calc |round2 l.sum - (l.map round2).sum|
      ≤ |round2 l.sum - l.sum| + |l.sum - (l.map round2).sum| := abs_sub_le _ _ _
    _ ≤ 1/200 + l.length * (1/200) := by
        refine add_le_add (abs_round2_sub _) ?_
        rw [abs_sub_comm]
        exact sum_map_abs_bound round2 (1/200) abs_round2_sub l
    _ = ((l.length : ℚ) + 1) * (1/200) := by ring

/-! Helper lemmas: shape of a successful per-element calculation. -/

theorem calculate_element_co2_cases (element : Element) (database : Database)
    (out : Option ℚ × ElementResult)
    (h : calculate_element_co2 element database = Except.ok out) :
    out.2.confidence = element.confidence.getD (1/2) ∧
    ((out.1 = none ∧ out.2.calculation_method = some "skipped") ∨
     (∃ raw m, out.1 = some raw ∧ out.2.calculation_method = some "volume_based" ∧
        out.2.co2_kg = some (round2 raw) ∧ out.2.mass_kg = some (round2 m))) := by
  simp only [calculate_element_co2] at h
  repeat' split at h
  all_goals
    first
    | exact Except.noConfusion h
    | (injection h with hh
       subst hh
       exact ⟨rfl, Or.inl ⟨rfl, rfl⟩⟩)
    | (injection h with hh
       subst hh
       exact ⟨rfl, Or.inr ⟨_, _, rfl, rfl, rfl, rfl⟩⟩)

/-- What one successful pass of the element loop adds to the accumulator:
new detailed results (with their raw CO2 values) and new skipped results. -/
theorem processElements_ok (database : Database) (els : List Element) :
    ∀ (acc acc' : RunAcc),
      processElements database acc els = Except.ok acc' →
      ∃ (dNew sNew : List ElementResult) (raws : List ℚ),
        acc'.detailed = acc.detailed ++ dNew ∧
        acc'.skipped = acc.skipped ++ sNew ∧
        acc'.calculated = acc.calculated + dNew.length ∧
        dNew.length + sNew.length = els.length ∧
        dNew.map ElementResult.co2_kg = raws.map (fun q => some (round2 q)) ∧
        acc'.total_co2 = acc.total_co2 + raws.sum ∧
        acc'.total_mass = acc.total_mass + (dNew.map (fun r => r.mass_kg.getD 0)).sum ∧
        (∀ r ∈ dNew, r.calculation_method = some "volume_based" ∧
          ∃ m, r.mass_kg = some (round2 m)) ∧
        (∀ r ∈ sNew, r.calculation_method = some "skipped") := by
  induction els with
  | nil =>
    intro acc acc' h
    simp only [processElements] at h
    injection h with hh
    subst hh
    exact ⟨[], [], [], by simp, by simp, by simp, by simp, by simp, by simp,
      by simp, by simp, by simp⟩
  | cons element rest ih =>
    intro acc acc' h
    simp only [processElements] at h
    cases hc : calculate_element_co2 element database with
    | error e =>
      rw [hc] at h
      exact Except.noConfusion h
    | ok out =>
      obtain ⟨c?, md⟩ := out
      rw [hc] at h
      obtain ⟨hconf, hcase⟩ := calculate_element_co2_cases element database _ hc
      simp only at h
      by_cases hm : md.calculation_method = some "skipped"
      · rw [if_pos hm] at h
        obtain ⟨dNew, sNew, raws, h1, h2, h3, h4, h5, h6, h7, h8, h9⟩ := ih _ _ h
        have h2' : acc'.skipped = acc.skipped ++ [md] ++ sNew := h2
        have h4' : dNew.length + sNew.length = rest.length := h4
        refine ⟨dNew, md :: sNew, raws, h1, ?_, h3, ?_, h5, h6, h7, h8, ?_⟩
        · exact h2'.trans (by simp)
        · simp only [List.length_cons]
          omega
        · intro r hr
          rcases List.mem_cons.mp hr with hr | hr
          · exact hr ▸ hm
          · exact h9 r hr
      · rw [if_neg hm] at h
        rcases hcase with ⟨_, hskip⟩ | ⟨raw, m, hc1, hc2, hc3, hc4⟩
        · exact absurd hskip hm
        · obtain ⟨dNew, sNew, raws, h1, h2, h3, h4, h5, h6, h7, h8, h9⟩ := ih _ _ h
          have hc1' : c? = some raw := hc1
          have hc2' : md.calculation_method = some "volume_based" := hc2
          have hc3' : md.co2_kg = some (round2 raw) := hc3
          have hc4' : md.mass_kg = some (round2 m) := hc4
          have h1' : acc'.detailed = acc.detailed ++ [md] ++ dNew := h1
          have h3' : acc'.calculated = acc.calculated + 1 + dNew.length := h3
          have h4' : dNew.length + sNew.length = rest.length := h4
          have h6' : acc'.total_co2 = acc.total_co2 + c?.getD 0 + raws.sum := h6
          have h7' : acc'.total_mass = acc.total_mass + md.mass_kg.getD 0 +
              (List.map (fun r => r.mass_kg.getD 0) dNew).sum := h7
          refine ⟨md :: dNew, sNew, raw :: raws, ?_, h2, ?_, ?_, ?_, ?_, ?_, ?_, h9⟩
          · exact h1'.trans (by simp)
          · simp only [List.length_cons]
            omega
          · simp only [List.length_cons]
            omega
          · simp [h5, hc3']
          · rw [hc1'] at h6'
            simp only [Option.getD_some] at h6'
            rw [h6', List.sum_cons]
            ring
          · rw [h7', List.map_cons, List.sum_cons]
            ring
          · intro r hr
            rcases List.mem_cons.mp hr with hr | hr
            · exact hr ▸ ⟨hc2', m, hc4'⟩
            · exact h8 r hr

/-! Helper lemmas: category aggregation sums. -/

theorem updateCategory_sums (acc : List (Option String × CategoryAgg))
    (cat : Option String) (r : ElementResult) :
    ((updateCategory acc cat r).map (fun p => p.2.co2_kg)).sum =
      (acc.map (fun p => p.2.co2_kg)).sum + r.co2_kg.getD 0 ∧
    ((updateCategory acc cat r).map (fun p => p.2.mass_kg)).sum =
      (acc.map (fun p => p.2.mass_kg)).sum + r.mass_kg.getD 0 ∧
    ((updateCategory acc cat r).map (fun p => p.2.count)).sum =
      (acc.map (fun p => p.2.count)).sum + 1 := by
  induction acc with
  | nil => refine ⟨?_, ?_, ?_⟩ <;> simp [updateCategory, addToCategory]
  | cons kv rest ih =>
    obtain ⟨k, agg⟩ := kv
    by_cases hk : k = cat
    · refine ⟨?_, ?_, ?_⟩ <;>
        (simp only [updateCategory, if_pos hk, List.map_cons, List.sum_cons,
          addToCategory] <;> ring_nf <;> omega)
    · obtain ⟨i1, i2, i3⟩ := ih
      refine ⟨?_, ?_, ?_⟩ <;>
        simp only [updateCategory, if_neg hk, List.map_cons, List.sum_cons, i1, i2, i3] <;>
        ring_nf <;> omega

theorem foldl_aggStep_sums (results : List ElementResult) :
    (∀ r ∈ results, r.calculation_method ≠ some "skipped") →
    ∀ init : List (Option String × CategoryAgg),
      ((results.foldl aggStep init).map (fun p => p.2.co2_kg)).sum =
        (init.map (fun p => p.2.co2_kg)).sum + (results.map resultCo2).sum ∧
      ((results.foldl aggStep init).map (fun p => p.2.mass_kg)).sum =
        (init.map (fun p => p.2.mass_kg)).sum +
          (results.map (fun r => r.mass_kg.getD 0)).sum ∧
      ((results.foldl aggStep init).map (fun p => p.2.count)).sum =
        (init.map (fun p => p.2.count)).sum + results.length := by
  induction results with
  | nil => intro _ init; refine ⟨?_, ?_, ?_⟩ <;> simp
  | cons r rs ih =>
    intro h init
    have hr : r.calculation_method ≠ some "skipped" := h r (List.mem_cons_self r rs)
    have hstep : aggStep init r = updateCategory init r.material_category r := by
      simp [aggStep, hr]
    have hrs : ∀ x ∈ rs, x.calculation_method ≠ some "skipped" :=
      fun x hx => h x (List.mem_cons_of_mem r hx)
    obtain ⟨u1, u2, u3⟩ := updateCategory_sums init r.material_category r
    obtain ⟨j1, j2, j3⟩ := ih hrs (aggStep init r)
    rw [hstep] at j1 j2 j3
    refine ⟨?_, ?_, ?_⟩ <;>
      simp only [List.foldl_cons, List.map_cons, List.sum_cons, List.length_cons] <;>
      rw [hstep]
    · rw [j1, u1, resultCo2]; ring
    · rw [j2, u2]; ring
    · rw [j3, u3]; omega

theorem aggregate_by_category_sums (results : List ElementResult)
    (h : ∀ r ∈ results, r.calculation_method ≠ some "skipped") :
    ((aggregate_by_category results).map (fun p => p.2.co2_kg)).sum =
      (results.map resultCo2).sum ∧
    ((aggregate_by_category results).map (fun p => p.2.mass_kg)).sum =
      (results.map (fun r => r.mass_kg.getD 0)).sum ∧
    ((aggregate_by_category results).map (fun p => p.2.count)).sum =
      results.length := by
  obtain ⟨j1, j2, j3⟩ := foldl_aggStep_sums results h []
  exact ⟨by simpa using j1, by simpa using j2, by simpa using j3⟩

/-! Helper lemmas: the percentage pass. -/

theorem setPercentages_co2_map (l : List (Option String × CategoryAgg)) :
    (setPercentages l).map (fun p => p.2.co2_kg) = l.map (fun p => p.2.co2_kg) := by
  simp only [setPercentages]
  split <;> (rw [List.map_map]; rfl)

theorem setPercentages_mass_map (l : List (Option String × CategoryAgg)) :
    (setPercentages l).map (fun p => p.2.mass_kg) = l.map (fun p => p.2.mass_kg) := by
  simp only [setPercentages]
  split <;> (rw [List.map_map]; rfl)

theorem setPercentages_count_map (l : List (Option String × CategoryAgg)) :
    (setPercentages l).map (fun p => p.2.count) = l.map (fun p => p.2.count) := by
  simp only [setPercentages]
  split <;> (rw [List.map_map]; rfl)

theorem setPercentages_length (l : List (Option String × CategoryAgg)) :
    (setPercentages l).length = l.length := by
  simp only [setPercentages]
  split <;> simp

theorem setPercentages_mem (l : List (Option String × CategoryAgg))
    (p : Option String × CategoryAgg) (hp : p ∈ setPercentages l) :
    ((l.map (fun q => q.2.co2_kg)).sum ≠ 0 →
      p.2.percentage =
        round1 (p.2.co2_kg / (l.map (fun q => q.2.co2_kg)).sum * 100)) ∧
    ((l.map (fun q => q.2.co2_kg)).sum = 0 → p.2.percentage = 0) := by
  simp only [setPercentages] at hp
  split at hp
  case isTrue hT =>
    obtain ⟨q, hq, rfl⟩ := List.mem_map.mp hp
    exact ⟨fun _ => rfl, fun h0 => absurd h0 hT⟩
  case isFalse hT =>
    obtain ⟨q, hq, rfl⟩ := List.mem_map.mp hp
    exact ⟨fun hT2 => absurd (not_not.mp hT) hT2, fun _ => rfl⟩

theorem setPercentages_pct_map (l : List (Option String × CategoryAgg))
    (hT : (l.map (fun q => q.2.co2_kg)).sum ≠ 0) :
    (setPercentages l).map (fun p => p.2.percentage) =
      (l.map (fun q => q.2.co2_kg)).map
        (fun c => round1 (c / (l.map (fun q => q.2.co2_kg)).sum * 100)) := by
  simp only [setPercentages, if_pos hT]
  rw [List.map_map, List.map_map]
  rfl

/-! Helper lemmas: report assembly inversion. -/

theorem generate_report_ok_inv (elements : List Element) (database : Database)
    (input_file : String) (rep : Report)
    (h : generate_report elements database input_file = Except.ok rep) :
    ∃ acc, processElements database ⟨[], [], 0, 0, 0⟩ elements = Except.ok acc ∧
      rep = assembleReport elements database input_file acc := by
  unfold generate_report at h
  cases hp : processElements database ⟨[], [], 0, 0, 0⟩ elements with
  | error e => rw [hp] at h; exact Except.noConfusion h
  | ok acc => rw [hp] at h; exact ⟨acc, rfl, (Except.ok.inj h).symm⟩

theorem assembleReport_fields (elements : List Element) (database : Database)
    (input_file : String) (acc : RunAcc) :
    (assembleReport elements database input_file acc).detailed_results =
      sortDescBy resultCo2 acc.detailed ∧
    (assembleReport elements database input_file acc).skipped_elements =
      acc.skipped ∧
    (assembleReport elements database input_file acc).by_category =
      sortDescBy (fun p => p.2.co2_kg)
        (setPercentages (aggregate_by_category (sortDescBy resultCo2 acc.detailed))) ∧
    (assembleReport elements database input_file acc).summary.total_elements =
      elements.length ∧
    (assembleReport elements database input_file acc).summary.calculated =
      acc.calculated ∧
    (assembleReport elements database input_file acc).summary.skipped =
      acc.skipped.length ∧
    (assembleReport elements database input_file acc).summary.total_co2_kg =
      round2 acc.total_co2 ∧
    (assembleReport elements database input_file acc).summary.total_mass_kg =
      round2 acc.total_mass :=
  ⟨rfl, rfl, rfl, rfl, rfl, rfl, rfl, rfl⟩

/-- C2: every input element is routed into exactly one of the report's two
partitions: `len(detailed_results) + len(skipped_elements) ==
summary.total_elements`, `summary.calculated == len(detailed_results)`,
`summary.skipped == len(skipped_elements)`, every detailed result is
"volume_based", every skipped result is "skipped", and no result record is in
both lists. -/
theorem C2_partition_invariant (elements : List Element) (database : Database)
    (input_file : String) (rep : Report)
    (h : generate_report elements database input_file = Except.ok rep) :
    rep.detailed_results.length + rep.skipped_elements.length =
      rep.summary.total_elements ∧
    rep.summary.total_elements = elements.length ∧
    rep.summary.calculated = rep.detailed_results.length ∧
    rep.summary.skipped = rep.skipped_elements.length ∧
    (∀ r ∈ rep.detailed_results, r.calculation_method = some "volume_based") ∧
    (∀ r ∈ rep.skipped_elements, r.calculation_method = some "skipped") ∧
    (∀ r ∈ rep.detailed_results, r ∉ rep.skipped_elements) := by
  obtain ⟨acc, hacc, rfl⟩ := generate_report_ok_inv elements database input_file rep h
  obtain ⟨f1, f2, f3, f4, f5, f6, f7, f8⟩ :=
    assembleReport_fields elements database input_file acc
  obtain ⟨dNew, sNew, raws, h1, h2, h3, h4, h5, h6, h7, h8, h9⟩ :=
    processElements_ok database elements _ _ hacc
  have hd : acc.detailed = dNew := by simpa using h1
  have hs : acc.skipped = sNew := by simpa using h2
  have hcal : acc.calculated = dNew.length := by simpa using h3
  have l1 : (assembleReport elements database input_file acc).detailed_results.length =
      dNew.length := by rw [f1, sortDescBy_length, hd]
  have l2 : (assembleReport elements database input_file acc).skipped_elements.length =
      sNew.length := by rw [f2, hs]
  have hmemd : ∀ r ∈ (assembleReport elements database input_file acc).detailed_results,
      r ∈ dNew := by
    intro r hr
    rw [f1] at hr
    exact hd ▸ (sortDescBy_perm resultCo2 acc.detailed).mem_iff.mp hr
  refine ⟨?_, f4, ?_, ?_, ?_, ?_, ?_⟩
  · rw [l1, l2, f4]
    omega
  · rw [f5, hcal, l1]
  · rw [f6, f2, hs]
  · intro r hr
    exact (h8 r (hmemd r hr)).1
  · intro r hr
    rw [f2, hs] at hr
    exact h9 r hr
  · intro r hr hr2
    have hv := (h8 r (hmemd r hr)).1
    rw [f2, hs] at hr2
    have hk := h9 r hr2
    rw [hv] at hk
    exact absurd (Option.some.inj hk) (by simp)

/-- C8: `detailed_results` is sorted descending by `co2_kg`, and
`by_category` iteration order is sorted descending by the aggregated
`co2_kg`. -/
theorem C8_ordering_invariant (elements : List Element) (database : Database)
    (input_file : String) (rep : Report)
    (h : generate_report elements database input_file = Except.ok rep) :
    rep.detailed_results.Pairwise (fun a b => resultCo2 b ≤ resultCo2 a) ∧
    rep.by_category.Pairwise (fun a b => b.2.co2_kg ≤ a.2.co2_kg) := by
  obtain ⟨acc, hacc, rfl⟩ := generate_report_ok_inv elements database input_file rep h
  obtain ⟨f1, f2, f3, f4, f5, f6, f7, f8⟩ :=
    assembleReport_fields elements database input_file acc
  constructor
  · rw [f1]
    exact sortDescBy_sorted resultCo2 acc.detailed
  · rw [f3]
    exact sortDescBy_sorted (fun p : Option String × CategoryAgg => p.2.co2_kg) _

/-- C9: `summary.total_co2_kg` equals the sum of the (rounded, stored)
`co2_kg` over `detailed_results` within rounding tolerance, likewise for
mass (the engine sums rounded masses, so the mass tolerance is a single
rounding step); and `by_category` aggregates exactly the detailed results,
so skipped elements contribute nothing to any total. -/
theorem C9_conservation_invariant (elements : List Element) (database : Database)
    (input_file : String) (rep : Report)
    (h : generate_report elements database input_file = Except.ok rep) :
    |rep.summary.total_co2_kg - (rep.detailed_results.map resultCo2).sum| ≤
      ((rep.detailed_results.length : ℚ) + 1) * (1 / 200) ∧
    |rep.summary.total_mass_kg -
        (rep.detailed_results.map (fun r => r.mass_kg.getD 0)).sum| ≤ 1 / 200 ∧
    (rep.by_category.map (fun p => p.2.co2_kg)).sum =
      (rep.detailed_results.map resultCo2).sum ∧
    (rep.by_category.map (fun p => p.2.mass_kg)).sum =
      (rep.detailed_results.map (fun r => r.mass_kg.getD 0)).sum ∧
    (rep.by_category.map (fun p => p.2.count)).sum = rep.detailed_results.length := by
  obtain ⟨acc, hacc, rfl⟩ := generate_report_ok_inv elements database input_file rep h
  obtain ⟨f1, f2, f3, f4, f5, f6, f7, f8⟩ :=
    assembleReport_fields elements database input_file acc
  obtain ⟨dNew, sNew, raws, h1, h2, h3, h4, h5, h6, h7, h8, h9⟩ :=
    processElements_ok database elements _ _ hacc
  have hd : acc.detailed = dNew := by simpa using h1
  have hco2 : acc.total_co2 = raws.sum := by simpa using h6
  have hmass : acc.total_mass = (dNew.map (fun r => r.mass_kg.getD 0)).sum := by
    simpa using h7
  have hlen : dNew.length = raws.length := by
    have := congrArg List.length h5
    simpa using this
  have hmapround : dNew.map resultCo2 = raws.map round2 := by
    calc dNew.map resultCo2
        = (dNew.map ElementResult.co2_kg).map (fun o => o.getD 0) := by
          rw [List.map_map]
          exact List.map_congr_left (fun r _ => rfl)
      _ = (raws.map (fun q => some (round2 q))).map (fun o => o.getD 0) := by rw [h5]
      _ = raws.map round2 := by
          rw [List.map_map]
          exact List.map_congr_left (fun q _ => rfl)
  have hdsum : ((assembleReport elements database input_file acc).detailed_results.map
      resultCo2).sum = (raws.map round2).sum := by
    rw [f1, sortDescBy_sum_map, hd, hmapround]
  have hdmass : ((assembleReport elements database input_file acc).detailed_results.map
      (fun r => r.mass_kg.getD 0)).sum = (dNew.map (fun r => r.mass_kg.getD 0)).sum := by
    rw [f1, sortDescBy_sum_map, hd]
  have hdlen : (assembleReport elements database input_file acc).detailed_results.length =
      dNew.length := by rw [f1, sortDescBy_length, hd]
  have hns : ∀ r ∈ sortDescBy resultCo2 acc.detailed,
      r.calculation_method ≠ some "skipped" := by
    intro r hr
    have := (h8 r (hd ▸ (sortDescBy_perm resultCo2 acc.detailed).mem_iff.mp hr)).1
    rw [this]
    simp
  obtain ⟨a1, a2, a3⟩ := aggregate_by_category_sums (sortDescBy resultCo2 acc.detailed) hns
  refine ⟨?_, ?_, ?_, ?_, ?_⟩
  · rw [f7, hco2, hdsum, hdlen, hlen]
    exact round2_sum_bound raws
  · rw [f8, hmass, hdmass]
    exact abs_round2_sub _
  · rw [f3, sortDescBy_sum_map, setPercentages_co2_map, a1, f1]
  · rw [f3, sortDescBy_sum_map, setPercentages_mass_map, a2, f1]
  · rw [f3, sortDescBy_sum_map, setPercentages_count_map, a3, f1]

set_option maxHeartbeats 1000000 in
/-- Summing 1-decimal-rounded percentage shares of a nonzero total stays
within one rounding step per share of 100. -/
theorem pct_shares_sum_bound (cs : List ℚ) (hcs : cs.sum ≠ 0) :
    |(cs.map (fun c => round1 (c / cs.sum * 100))).sum - 100| ≤
      (cs.length : ℚ) * (1 / 20) := by
  have hmm : cs.map (fun c => round1 (c / cs.sum * 100)) =
      (cs.map (fun c => c / cs.sum * 100)).map round1 := by
    rw [List.map_map]
    exact List.map_congr_left (fun c _ => rfl)
  have hrw : cs.map (fun c => c / cs.sum * 100) =
      cs.map (fun c => c * (100 / cs.sum)) :=
    List.map_congr_left (fun c _ => by ring)
  have hsum100 : (cs.map (fun c => c / cs.sum * 100)).sum = 100 := by
    rw [hrw, List.sum_map_mul_right, List.map_id']
    field_simp
  have hbound := sum_map_abs_bound round1 (1/20) abs_round1_sub
    (cs.map (fun c => c / cs.sum * 100))
  rw [hsum100] at hbound
  rw [hmm]
  calc |((cs.map (fun c => c / cs.sum * 100)).map round1).sum - 100|
      ≤ ((cs.map (fun c => c / cs.sum * 100)).length : ℚ) * (1/20) := hbound
    _ = (cs.length : ℚ) * (1/20) := by rw [List.length_map]

/-- C7: each `by_category` entry's percentage is its `co2_kg` over the total
CO2 of all calculated categories, times 100, rounded to 1 decimal; when that
total is positive the percentages sum to 100 within one rounding step per
category, and when the total is 0 every percentage is exactly 0 (the guard
prevents any division by zero). -/
theorem C7_percentage_invariant (elements : List Element) (database : Database)
    (input_file : String) (rep : Report)
    (h : generate_report elements database input_file = Except.ok rep) :
    (∀ p ∈ rep.by_category,
      ((rep.by_category.map (fun q => q.2.co2_kg)).sum ≠ 0 →
        p.2.percentage =
          round1 (p.2.co2_kg / (rep.by_category.map (fun q => q.2.co2_kg)).sum * 100)) ∧
      ((rep.by_category.map (fun q => q.2.co2_kg)).sum = 0 → p.2.percentage = 0)) ∧
    (0 < (rep.by_category.map (fun q => q.2.co2_kg)).sum →
      |(rep.by_category.map (fun p => p.2.percentage)).sum - 100| ≤
        (rep.by_category.length : ℚ) * (1 / 20)) := by
  obtain ⟨acc, hacc, rfl⟩ := generate_report_ok_inv elements database input_file rep h
  obtain ⟨f1, f2, f3, f4, f5, f6, f7, f8⟩ :=
    assembleReport_fields elements database input_file acc
  obtain ⟨A, hA⟩ : ∃ A, aggregate_by_category (sortDescBy resultCo2 acc.detailed) = A :=
    ⟨_, rfl⟩
  rw [hA] at f3
  have hT : ((assembleReport elements database input_file acc).by_category.map
      (fun q => q.2.co2_kg)).sum = (A.map (fun q => q.2.co2_kg)).sum := by
    rw [f3, sortDescBy_sum_map, setPercentages_co2_map]
  constructor
  · intro p hp
    rw [f3] at hp
    have hp2 : p ∈ setPercentages A :=
      (sortDescBy_perm (fun p : Option String × CategoryAgg => p.2.co2_kg)
        (setPercentages A)).mem_iff.mp hp
    obtain ⟨m1, m2⟩ := setPercentages_mem A p hp2
    exact ⟨fun hne => by rw [hT] at hne; rw [hT]; exact m1 hne,
      fun hz => by rw [hT] at hz; exact m2 hz⟩
  · intro hpos
    have hTA : (A.map (fun q => q.2.co2_kg)).sum ≠ 0 := by
      rw [hT] at hpos
      exact ne_of_gt hpos
    have hpct : ((assembleReport elements database input_file acc).by_category.map
        (fun p => p.2.percentage)).sum =
        (((A.map (fun q => q.2.co2_kg)).map
          (fun c => round1 (c / (A.map (fun q => q.2.co2_kg)).sum * 100)))).sum := by
      rw [f3, sortDescBy_sum_map, setPercentages_pct_map A hTA]
    have hlen : (assembleReport elements database input_file acc).by_category.length =
        (A.map (fun q => q.2.co2_kg)).length := by
      rw [f3, sortDescBy_length, setPercentages_length, List.length_map]
    have hfinal := pct_shares_sum_bound (A.map (fun q => q.2.co2_kg)) hTA
    rw [← hpct, ← hlen] at hfinal
    exact hfinal

/-- Evaluation of the full pipeline on the three-element run: two calculated
elements (steel 15700 kg, concrete 2400 kg CO2) and one skipped. -/
theorem generate_report_evalW :
    generate_report [elemW1, elemW2, elemW3] dbW "input.json" = Except.ok repW := by
  have h1 : calculate_element_co2 elemW1 dbW = Except.ok (some (24000 * (1/10)), resW1) := by
    simp [calculate_element_co2, initial_metadata, find_co2_factor, get_material_density,
      dictGet, optGet, dbW, elemW1, markSkipped, reinforceable_types, strIn, pyLower,
      charsHasSub, charsMatchAt, round2, resW1, get_reinforcement_ratio, ratioGetD]
    norm_num [round_eq]
  have h2 : calculate_element_co2 elemW2 dbW = Except.ok (some (7850 * 2), resW2) := by
    simp [calculate_element_co2, initial_metadata, find_co2_factor, get_material_density,
      dictGet, optGet, dbW, elemW2, markSkipped, reinforceable_types, strIn, pyLower,
      charsHasSub, charsMatchAt, round2, resW2, get_reinforcement_ratio, ratioGetD]
    norm_num [round_eq]
  have h3 : calculate_element_co2 elemW3 dbW = Except.ok (none, C6skip elemW3) := by
    simp [calculate_element_co2, elemW3, C6skip]
    rfl
  have hproc : processElements dbW ⟨[], [], 0, 0, 0⟩ [elemW1, elemW2, elemW3] =
      Except.ok ⟨[resW1, resW2], [C6skip elemW3], 18100, 31850, 2⟩ := by
    simp only [processElements, h1, h2, h3]
    norm_num [resW1, resW2, C6skip, markSkipped, initial_metadata, elemW3, round2,
      (by decide : ("volume_based" : String) ≠ "skipped")]
  simp only [generate_report, hproc]
  congr 1
  simp only [assembleReport]
  norm_num [sortDescBy, insertDescBy, resultCo2, aggregate_by_category, aggStep,
    updateCategory, addToCategory, setPercentages, round1, round2, round_eq,
    resW1, resW2, C6skip, markSkipped, initial_metadata, elemW3, dbW, repW,
    (by decide : ("volume_based" : String) ≠ "skipped"),
    (by decide : ("steel" : String) ≠ "concrete"),
    (by decide : ("concrete" : String) ≠ "steel")]

/-- C1 (amended): for a category present in `materials`, the resolver uses
the exact subcategory entry with no warning; else the `<category>_generic`
entry with one warning naming the generic key and the requested subcategory;
else, when the mapping is non-empty and its first key is a non-empty string,
the first entry with a warning naming that fallback key. -/
theorem C1_factor_fallback_chain (database : Database) (material_category : String)
    (material_subcategory : Option String)
    (category_data : List (String × MatEntry))
    (hcat : dictGet material_category database.materials = some category_data) :
    (∀ entry, optGet material_subcategory category_data = some entry →
      find_co2_factor database material_category material_subcategory =
        Except.ok (entry.embodied_co2_per_kg, entry.source.getD "unknown", [])) ∧
    (optGet material_subcategory category_data = none →
      ∀ entry, dictGet (material_category ++ "_generic") category_data = some entry →
      find_co2_factor database material_category material_subcategory =
        Except.ok (entry.embodied_co2_per_kg, entry.source.getD "unknown",
          ["Used " ++ (material_category ++ "_generic") ++ " as fallback for " ++
            pyStr material_subcategory])) ∧
    (optGet material_subcategory category_data = none →
      dictGet (material_category ++ "_generic") category_data = none →
      ∀ first_key entry rest, category_data = (first_key, entry) :: rest →
      first_key ≠ "" →
      find_co2_factor database material_category material_subcategory =
        Except.ok (entry.embodied_co2_per_kg, entry.source.getD "unknown",
          ["Used " ++ first_key ++ " as fallback for " ++
            pyStr material_subcategory])) := by
  refine ⟨?_, ?_, ?_⟩
  · intro entry he
    simp only [find_co2_factor, hcat, he]
  · intro h1 entry h2
    simp only [find_co2_factor, hcat, h1, h2]
  · intro h1 h2 first_key entry rest hcd hfk
    subst hcd
    have hne : some first_key ≠ material_subcategory := by
      intro heq
      rw [← heq] at h1
      simp [optGet, dictGet] at h1
    simp only [find_co2_factor, hcat, h1, h2, List.head?]
    rw [if_pos ⟨hfk, hne⟩]

/-- C1 witness: first-available fallback at a concrete database: the single
key `brick_standard` is used with the fallback warning. -/
theorem C1_factor_fallback_chain_witness :
    find_co2_factor dbC1w "brick" (some "x") =
      Except.ok (some 1, "unknown", ["Used brick_standard as fallback for x"]) :=
  (C1_factor_fallback_chain dbC1w "brick" (some "x")
      [("brick_standard", ⟨some 1, some 1800, none⟩)] rfl).2.2
    rfl rfl "brick_standard" ⟨some 1, some 1800, none⟩ [] rfl (by decide)

/-- C1 counterexample to the claim as stated: the category `cat` is present
and non-empty (single entry under the key "", with factor 7), the
subcategory and generic keys are absent, yet the resolver returns no factor
with the not-found warning instead of the first entry's values, because the
empty-string first key is falsy in Python. -/
theorem C1_empty_first_key_counterexample :
    dictGet "cat" dbC1.materials =
      some [("", ⟨some 7, some 1, some "src"⟩)] ∧
    optGet (some "x") [(("" : String), (⟨some 7, some 1, some "src"⟩ : MatEntry))] = none ∧
    dictGet "cat_generic" [(("" : String), (⟨some 7, some 1, some "src"⟩ : MatEntry))] = none ∧
    find_co2_factor dbC1 "cat" (some "x") =
      Except.ok (none, "not_found",
        ["Material 'x' not found in database category 'cat'"]) :=
  ⟨rfl, rfl, rfl, rfl⟩

/-- C5: on a present-but-empty category the resolver of
`calculate_co2_report.py` raises `IndexError` instead of returning the
not-found result; the sibling copy in `final_co2_calculation.py` is total as
the claim demands, and the absent-category leg does return the not-found
warning. -/
theorem C5_empty_category_totality :
    find_co2_factor dbC5 "brick" (some "x") =
      Except.error "IndexError: list index out of range" ∧
    find_co2_factor_final dbC5 "brick" (some "x") =
      (none, "not_found", ["Material 'x' not found in database category 'brick'"]) ∧
    find_co2_factor dbC5 "granite" (some "x") =
      Except.ok (none, "not_found",
        ["Material category 'granite' not found in database"]) :=
  ⟨rfl, rfl, rfl⟩

/-- C6: an element with null (or zero) volume is skipped at the first step:
the result has method "skipped", exactly the no-volume warning, null numeric
fields; the computation never touches the database; and the run on such an
element still produces a full report with the element in
`skipped_elements`. -/
theorem C6_null_volume_skip (element : Element) (database database' : Database)
    (input_file : String)
    (hvol : element.volume_m3 = none ∨ element.volume_m3 = some 0) :
    calculate_element_co2 element database = Except.ok (none, C6skip element) ∧
    calculate_element_co2 element database = calculate_element_co2 element database' ∧
    (C6skip element).calculation_method = some "skipped" ∧
    (C6skip element).warnings = ["No volume data - cannot calculate CO2"] ∧
    (C6skip element).mass_kg = none ∧
    (C6skip element).co2_kg = none ∧
    (C6skip element).co2_factor_used = none ∧
    generate_report [element] database input_file =
      Except.ok
        { summary :=
            { input_file := input_file
              database_version := database.version.getD "unknown"
              total_elements := 1
              calculated := 0
              skipped := 1
              total_co2_kg := 0
              total_mass_kg := 0
              completeness_pct := 0 }
          by_category := []
          detailed_results := []
          skipped_elements := [C6skip element] } := by
  have hcalc : ∀ db : Database,
      calculate_element_co2 element db = Except.ok (none, C6skip element) := by
    intro db
    rcases hvol with hv | hv <;>
      simp [calculate_element_co2, hv, C6skip] <;> rfl
  refine ⟨hcalc database, (hcalc database).trans (hcalc database').symm,
    rfl, rfl, rfl, rfl, rfl, ?_⟩
  have hproc : processElements database ⟨[], [], 0, 0, 0⟩ [element] =
      Except.ok ⟨[], [C6skip element], 0, 0, 0⟩ := by
    simp [processElements, hcalc database, C6skip, markSkipped]
  simp only [generate_report, hproc]
  congr 1
  simp only [assembleReport, sortDescBy, aggregate_by_category, List.foldl_nil,
    setPercentages, List.map_nil, List.sum_nil]
  norm_num [round2, round1, round_eq]

/-- C6 witness: a concrete null-volume element is skipped with the exact
warning and null fields. -/
theorem C6_null_volume_skip_witness :
    calculate_element_co2 elemC6 dbW = Except.ok (none, C6skip elemC6) :=
  (C6_null_volume_skip elemC6 dbW dbW "input.json" (Or.inl rfl)).1

/-- C10 (amended): `calculate_co2_report.py` carries the element's confidence
through unmodified (defaulting to 0.5 when absent, with no rounding), while
`build_co2_report.py`'s result construction is the copy that rounds it to 2
decimals. -/
theorem C10_confidence_passthrough (element : Element) (database : Database)
    (out : Option ℚ × ElementResult)
    (h : calculate_element_co2 element database = Except.ok out) :
    out.2.confidence = element.confidence.getD (1/2) ∧
    (build_initial_result element).confidence =
      round2 (element.confidence.getD (1/2)) :=
  ⟨(calculate_element_co2_cases element database out h).1, rfl⟩

/-- C10 witness: for the concrete element with confidence 0.123 the engine
result carries 0.123 and the build copy stores its 2-decimal rounding. -/
theorem C10_confidence_passthrough_witness :
    resC10.confidence = elemC10.confidence.getD (1/2) ∧
    (build_initial_result elemC10).confidence =
      round2 (elemC10.confidence.getD (1/2)) :=
  C10_confidence_passthrough elemC10 dbC10 (none, resC10) rfl

/-- C10 counterexample to the claim as stated: with input confidence 0.123,
`calculate_element_co2` stores 0.123 unrounded, which differs from the
2-decimal rounding 0.12 the claim requires (that rounding only happens in
`build_co2_report.py`). -/
theorem C10_unrounded_confidence_counterexample :
    calculate_element_co2 elemC10 dbC10 = Except.ok (none, resC10) ∧
    resC10.confidence = 123/1000 ∧
    round2 (123/1000) = 12/100 ∧
    ((123 : ℚ)/1000) ≠ 12/100 ∧
    (build_initial_result elemC10).confidence = 12/100 := by
  refine ⟨rfl, rfl, ?_, by norm_num, ?_⟩
  · rw [round2, round_eq]
    norm_num
  · show round2 (elemC10.confidence.getD (1/2)) = 12/100
    rw [show elemC10.confidence.getD (1/2) = 123/1000 from rfl, round2, round_eq]
    norm_num

/-- C3: the code diverges from the claim. For `element_type = "column"` with
no exact `reinforcement_ratios` key, `calculate_co2_report.py`'s resolver
returns ratio 0 (its column check is unreachably nested under a
"structural"/"slab" guard), so a 1000 kg concrete column gets no rebar CO2
and no reinforcement warning; the sibling `build_co2_report.py` resolver
returns the claimed 2.5% (and 25 x 1.65 = 41.25 kg would have been added). -/
theorem C3_plain_column_no_rebar_added :
    get_reinforcement_ratio dbC3 "column" = 0 ∧
    get_rebar_ratio dbC3 "column" = 1/40 ∧
    calculate_element_co2 elemC3 dbC3 = Except.ok (some 100,
      { global_id := some "g1"
        element_name := some "Column1"
        element_type := some "column"
        material_category := some "concrete"
        volume_m3 := some 1
        mass_kg := some 1000
        co2_kg := some 100
        co2_factor_used := some (1/10)
        data_source := some "db"
        calculation_method := some "volume_based"
        confidence := 1
        warnings := []
        reinforcement_added := false }) ∧
    (1000 : ℚ) * (1/40) = 25 ∧
    (25 : ℚ) * (165/100) = 165/4 ∧
    (100 : ℚ) ≠ 100 + 25 * (165/100) := by
  refine ⟨?_, ?_, ?_, by norm_num, by norm_num, by norm_num⟩
  · simp [get_reinforcement_ratio, dictGet, dbC3, strIn, pyLower, charsHasSub, charsMatchAt]
  · simp [get_rebar_ratio, ratioGetD, dictGet, dbC3, strIn, pyLower, charsHasSub,
      charsMatchAt]
    norm_num
  · simp [calculate_element_co2, initial_metadata, find_co2_factor, get_material_density,
      get_reinforcement_ratio, ratioGetD, dictGet, optGet, dbC3, elemC3, markSkipped,
      reinforceable_types, strIn, pyLower, charsHasSub, charsMatchAt, round2]
    norm_num [round_eq]

/-- Replacing the steel category changes no lookup under another key. -/
theorem dictGet_setSteelMats (steel_data : List (String × MatEntry))
    (k : String) (hk : k ≠ "steel")
    (mats : List (String × List (String × MatEntry))) :
    dictGet k (setSteelMats steel_data mats) = dictGet k mats := by
  induction mats with
  | nil => rfl
  | cons p rest ih =>
    obtain ⟨k2, v⟩ := p
    simp only [setSteelMats]
    by_cases hp : k2 = "steel"
    · rw [if_pos hp]
      simp only [dictGet]
      rw [if_neg hk, if_neg (by rw [hp]; exact hk), ih]
    · rw [if_neg hp]
      simp only [dictGet]
      by_cases hkk : k = k2
      · rw [if_pos hkk, if_pos hkk]
      · rw [if_neg hkk, if_neg hkk, ih]

/-- Factor resolution for the concrete category is blind to the steel
category. -/
theorem find_co2_factor_setSteel_concrete (database : Database)
    (steel_data : List (String × MatEntry)) (sub : Option String) :
    find_co2_factor (setSteel database steel_data) "concrete" sub =
      find_co2_factor database "concrete" sub := by
  simp only [find_co2_factor, setSteel,
    dictGet_setSteelMats steel_data "concrete" (by decide)]

/-- Density resolution for the concrete category is blind to the steel
category. -/
theorem get_material_density_setSteel_concrete (database : Database)
    (steel_data : List (String × MatEntry)) (sub : Option String) :
    get_material_density (setSteel database steel_data) "concrete" sub =
      get_material_density database "concrete" sub := by
  simp only [get_material_density, setSteel,
    dictGet_setSteelMats steel_data "concrete" (by decide)]

/-- The reinforcement-ratio table is untouched by a steel replacement. -/
theorem get_reinforcement_ratio_setSteel (database : Database)
    (steel_data : List (String × MatEntry)) (t : String) :
    get_reinforcement_ratio (setSteel database steel_data) t =
      get_reinforcement_ratio database t := rfl

/-- Concrete evaluation: for `elemC4` (concrete beam, mass 2000 kg, keyed
ratio 2.8%) the engine yields CO2 292.4 = 200 + 56 x 1.65 for every steel
entry. -/
theorem calcC4_eval (se : MatEntry) :
    calculate_element_co2 elemC4 (dbC4 se) = Except.ok (some (1462/5), resC4) := by
  simp [calculate_element_co2, initial_metadata, find_co2_factor, get_material_density,
    get_reinforcement_ratio, ratioGetD, dictGet, optGet, dbC4, elemC4, markSkipped,
    reinforceable_types, rebarWarning, fixedDecimal, strIn, pyLower, charsHasSub,
    charsMatchAt, round2, resC4]
  norm_num [round_eq]
  all_goals decide

/-- C4 (amended): the steel CO2 factor is the literal constant 1.65 and the
database's steel category (hence its `steel_reinforcement` entry) is never
consulted. Part one: for every concrete-category element the whole result is
invariant under replacing the steel category by anything. Part two: for
every element and database for which the engine adds reinforcement, the raw
CO2 is base plus rebar mass times the literal 165/100, with the factor,
density and ratio pinned to the engine's own resolvers. -/
theorem C4_steel_factor_hardcoded :
    (∀ (element : Element) (database : Database)
        (steel1 steel2 : List (String × MatEntry)),
      (element.material_primary.getD ⟨none, none⟩).category = some "concrete" →
      calculate_element_co2 element (setSteel database steel1) =
        calculate_element_co2 element (setSteel database steel2)) ∧
    (∀ (element : Element) (database : Database) (raw : ℚ) (r : ElementResult),
      calculate_element_co2 element database = Except.ok (some raw, r) →
      r.reinforcement_added = true →
      ∃ (volume density co2_factor : ℚ) (c t src : String) (ws : List String),
        element.volume_m3 = some volume ∧
        (element.material_primary.getD ⟨none, none⟩).category = some c ∧
        element.element_type = some t ∧
        find_co2_factor database c
          (element.material_primary.getD ⟨none, none⟩).subcategory =
          Except.ok (some co2_factor, src, ws) ∧
        get_material_density database c
          (element.material_primary.getD ⟨none, none⟩).subcategory =
          Except.ok (some density) ∧
        c = "concrete" ∧ t ∈ reinforceable_types ∧
        0 < get_reinforcement_ratio database t ∧
        raw = volume * density * co2_factor +
          volume * density * get_reinforcement_ratio database t * (165/100) ∧
        r.co2_kg = some (round2 raw)) := by
  constructor
  · intro element database steel1 steel2 hcat
    simp only [calculate_element_co2, hcat, find_co2_factor_setSteel_concrete,
      get_material_density_setSteel_concrete, get_reinforcement_ratio_setSteel]
  · intro element database raw r h hre
    cases hv : element.volume_m3 with
    | none =>
      simp only [calculate_element_co2, hv] at h
      injection h with hh
      injection hh with ha hb
      exact Option.noConfusion ha
    | some volume =>
      simp only [calculate_element_co2, hv] at h
      by_cases h0 : volume = 0
      · rw [if_pos h0] at h
        injection h with hh
        injection hh with ha hb
        exact Option.noConfusion ha
      · rw [if_neg h0] at h
        cases hc : (element.material_primary.getD ⟨none, none⟩).category with
        | none =>
          simp only [hc] at h
          injection h with hh
          injection hh with ha hb
          exact Option.noConfusion ha
        | some c =>
          simp only [hc] at h
          by_cases hce : c = ""
          · rw [if_pos hce] at h
            injection h with hh
            injection hh with ha hb
            exact Option.noConfusion ha
          · rw [if_neg hce] at h
            cases hf : find_co2_factor database c
                (element.material_primary.getD ⟨none, none⟩).subcategory with
            | error e =>
              simp only [hf] at h
              exact Except.noConfusion h
            | ok val =>
              obtain ⟨f?, source, fws⟩ := val
              cases f? with
              | none =>
                simp only [hf] at h
                injection h with hh
                injection hh with ha hb
                exact Option.noConfusion ha
              | some co2_factor =>
                simp only [hf] at h
                cases hd : get_material_density database c
                    (element.material_primary.getD ⟨none, none⟩).subcategory with
                | error e =>
                  simp only [hd] at h
                  exact Except.noConfusion h
                | ok dens? =>
                  cases dens? with
                  | none =>
                    simp only [hd] at h
                    injection h with hh
                    injection hh with ha hb
                    exact Option.noConfusion ha
                  | some density =>
                    simp only [hd] at h
                    cases ht : element.element_type with
                    | none =>
                      simp only [ht] at h
                      injection h with hh
                      injection hh with ha hb
                      subst hb
                      simp [initial_metadata] at hre
                    | some t =>
                      simp only [ht] at h
                      by_cases he : c = "concrete" ∧ t ∈ reinforceable_types
                      · rw [if_pos he] at h
                        by_cases hr : 0 < get_reinforcement_ratio database t
                        · rw [if_pos hr] at h
                          injection h with hh
                          injection hh with ha hb
                          subst hb
                          injection ha with ha2
                          subst ha2
                          exact ⟨volume, density, co2_factor, c, t, source, fws,
                            rfl, rfl, rfl, hf, hd, he.1, he.2, hr, rfl, rfl⟩
                        · rw [if_neg hr] at h
                          injection h with hh
                          injection hh with ha hb
                          subst hb
                          simp [initial_metadata] at hre
                      · rw [if_neg he] at h
                        injection h with hh
                        injection hh with ha hb
                        subst hb
                        simp [initial_metadata] at hre

/-- C4 witness: part two of the theorem instantiated at the concrete beam
`elemC4` over the database holding `steelEntryC4` (factor 2.0): the raw CO2
292.4 decomposes with the literal 1.65. -/
theorem C4_steel_factor_hardcoded_witness :
    ∃ (volume density co2_factor : ℚ) (c t src : String) (ws : List String),
      elemC4.volume_m3 = some volume ∧
      (elemC4.material_primary.getD ⟨none, none⟩).category = some c ∧
      elemC4.element_type = some t ∧
      find_co2_factor (dbC4 steelEntryC4) c
        (elemC4.material_primary.getD ⟨none, none⟩).subcategory =
        Except.ok (some co2_factor, src, ws) ∧
      get_material_density (dbC4 steelEntryC4) c
        (elemC4.material_primary.getD ⟨none, none⟩).subcategory =
        Except.ok (some density) ∧
      c = "concrete" ∧ t ∈ reinforceable_types ∧
      0 < get_reinforcement_ratio (dbC4 steelEntryC4) t ∧
      (1462 : ℚ)/5 = volume * density * co2_factor +
        volume * density * get_reinforcement_ratio (dbC4 steelEntryC4) t * (165/100) ∧
      resC4.co2_kg = some (round2 ((1462 : ℚ)/5)) :=
  C4_steel_factor_hardcoded.2 elemC4 (dbC4 steelEntryC4) (1462/5) resC4
    (calcC4_eval steelEntryC4) rfl

/-- C4 counterexample to the claim as stated: the database's
`steel.steel_reinforcement` entry is present with factor 2.0 (not 1.65), yet
the computed CO2 is 292.4 = 200 + 56 x 1.65, not the 312 = 200 + 56 x 2 the
claim requires. -/
theorem C4_steel_db_entry_ignored_counterexample :
    steelEntryC4.embodied_co2_per_kg = some 2 ∧
    ((2 : ℚ)) ≠ 165/100 ∧
    (dictGet "steel" (dbC4 steelEntryC4).materials).map (dictGet "steel_reinforcement") =
      some (some steelEntryC4) ∧
    calculate_element_co2 elemC4 (dbC4 steelEntryC4) =
      Except.ok (some (1462/5), resC4) ∧
    ((1462 : ℚ)/5) ≠ 200 + 2000 * ((14/5)/100) * 2 := by
  refine ⟨rfl, by norm_num, rfl, calcC4_eval steelEntryC4, by norm_num⟩

/-- C2 witness: partition counts on the concrete three-element run. -/
theorem C2_partition_invariant_witness :
    repW.detailed_results.length + repW.skipped_elements.length =
      repW.summary.total_elements :=
  (C2_partition_invariant [elemW1, elemW2, elemW3] dbW "input.json" repW
    generate_report_evalW).1

/-- C7 witness: the percentage sum bound on the concrete run (86.7 + 13.3 =
100 exactly, within the 2-category tolerance). -/
theorem C7_percentage_invariant_witness :
    |(repW.by_category.map (fun p => p.2.percentage)).sum - 100| ≤
      (repW.by_category.length : ℚ) * (1 / 20) :=
  (C7_percentage_invariant [elemW1, elemW2, elemW3] dbW "input.json" repW
    generate_report_evalW).2
    (by norm_num [repW])

/-- C8 witness: the concrete run's report is descending in both lists. -/
theorem C8_ordering_invariant_witness :
    repW.detailed_results.Pairwise (fun a b => resultCo2 b ≤ resultCo2 a) ∧
    repW.by_category.Pairwise (fun a b => b.2.co2_kg ≤ a.2.co2_kg) :=
  C8_ordering_invariant [elemW1, elemW2, elemW3] dbW "input.json" repW
    generate_report_evalW

/-- C9 witness: category CO2 totals equal the detailed CO2 totals on the
concrete run. -/
theorem C9_conservation_invariant_witness :
    (repW.by_category.map (fun p => p.2.co2_kg)).sum =
      (repW.detailed_results.map resultCo2).sum :=
  (C9_conservation_invariant [elemW1, elemW2, elemW3] dbW "input.json" repW
    generate_report_evalW).2.2.1

end BuildOS
